import Mathlib

/-!
Shallow embedding of the ManagerLeague tactical simulator core
(`ml_simulator_app.py`): data model, rating calculator, tactical bonus
tables, Poisson goal model and series aggregator, together with
spec-side definitions used for refinement comparisons.

Python floats are modelled as exact rationals; the Poisson sampler's
transcendental `exp(-x)` is abstracted as a function parameter `expNeg`,
and the sampler's unbounded `while` loop is given explicit fuel and
returns `Option`.  Python exceptions are modelled with `Except`.
-/

namespace MLSim

attribute [local semireducible] Rat.mul Rat.add Rat.sub Rat.inv

/-- `Player` dataclass: role, position and ten skill attributes. -/
structure Player where
  name : String
  age : Int
  role : String
  position : String
  q : ℚ
  kp : ℚ
  tk : ℚ
  pa : ℚ
  sh : ℚ
  he : ℚ
  sp : ℚ
  st : ℚ
  pe : ℚ
  bc : ℚ
deriving DecidableEq

/-- `TeamStats` dataclass: nine team-level values. -/
structure TeamStats where
  attacking : ℚ
  defending : ℚ
  counter_attacking : ℚ
  offside : ℚ
  free_kick : ℚ
  corner : ℚ
  penalty : ℚ
  understanding : ℚ
  teamplay : ℚ
deriving DecidableEq

/-- `Team` dataclass: roster, tactics, team stats and the home flag. -/
structure Team where
  name : String
  players : List Player
  formation : String
  style : String
  pressure : String
  stats : TeamStats
  home : Bool
deriving DecidableEq

/-- `ROLE_OPTIONS` from the source. -/
def ROLE_OPTIONS : List String := ["Gk", "Def", "Mid", "Att"]

/-- ASCII lower-casing of one character, as Python `str.lower` acts on the
ASCII tokens this program compares. -/
def lowerChar (c : Char) : Char :=
  if 'A' ≤ c ∧ c ≤ 'Z' then Char.ofNat (c.toNat + 32) else c

/-- ASCII upper-casing of one character, as Python `str.upper` acts on the
ASCII tokens this program compares. -/
def upperChar (c : Char) : Char :=
  if 'a' ≤ c ∧ c ≤ 'z' then Char.ofNat (c.toNat - 32) else c

/-- `str.lower()` on ASCII strings. -/
def lowerStr (s : String) : String := ⟨s.data.map lowerChar⟩

/-- `str.upper()` on ASCII strings. -/
def upperStr (s : String) : String := ⟨s.data.map upperChar⟩

/-- The formation matchup dict `FORMATION_MATCHUPS`, as an association list. -/
def FORMATION_MATCHUPS : List ((String × String) × ℚ) :=
  [(("4-4-2", "3-5-2"), 1),
   (("3-5-2", "4-4-2"), -1),
   (("4-5-1", "3-4-3"), 1),
   (("3-4-3", "4-5-1"), -1),
   (("4-4-2", "4-3-3"), -(5/10 : ℚ)),
   (("4-3-3", "4-4-2"), (5/10 : ℚ))]

/-- `style_match_bonus`: the rock-paper-scissors style interaction. -/
def style_match_bonus (my_style opp_style : String) : ℚ :=
  let my := lowerStr my_style
  let op := lowerStr opp_style
  if my = op then 0
  else if my = "longballs" ∧ op = "continental" then 2
  else if my = "continental" ∧ op = "mixed" then 2
  else if my = "mixed" ∧ op = "longballs" then 2
  else if op = "longballs" ∧ my = "continental" then -2
  else if op = "continental" ∧ my = "mixed" then -2
  else if op = "mixed" ∧ my = "longballs" then -2
  else 0

/-- `formation_match_bonus`: dict `.get` with default `0.0`. -/
def formation_match_bonus (my_form opp_form : String) : ℚ :=
  (FORMATION_MATCHUPS.lookup (my_form, opp_form)).getD 0

/-- `average_q`: mean Quality; divisor `max(1, len(players))`. -/
def average_q (team : Team) : ℚ :=
  (team.players.map Player.q).sum / ((max 1 team.players.length : ℕ) : ℚ)

/-- The role-dispatched base contribution of one player inside the loop of
`compute_line_ratings` (the `if role == "Att" ... else # Gk` block),
returned as `(atk, deff)`. -/
def roleContrib (p : Player) : ℚ × ℚ :=
  if p.role = "Att" then
    ((35/100 : ℚ) * p.sh + (25/100 : ℚ) * p.pa + (10/100 : ℚ) * p.kp + (15/100 : ℚ) * p.sp + (5/100 : ℚ) * p.he + (10/100 : ℚ) * p.q,
     (15/100 : ℚ) * p.tk + (10/100 : ℚ) * p.bc + (5/100 : ℚ) * p.st)
  else if p.role = "Mid" then
    ((25/100 : ℚ) * p.sh + (30/100 : ℚ) * p.pa + (15/100 : ℚ) * p.kp + (10/100 : ℚ) * p.sp + (5/100 : ℚ) * p.he + (5/100 : ℚ) * p.q,
     (25/100 : ℚ) * p.tk + (10/100 : ℚ) * p.bc + (5/100 : ℚ) * p.st)
  else if p.role = "Def" then
    ((5/100 : ℚ) * p.pa + (5/100 : ℚ) * p.he,
     (35/100 : ℚ) * p.tk + (20/100 : ℚ) * p.he + (15/100 : ℚ) * p.st + (15/100 : ℚ) * p.bc + (5/100 : ℚ) * p.q)
  else
    ((2/100 : ℚ) * p.pa,
     (40/100 : ℚ) * p.q + (15/100 : ℚ) * p.bc + (10/100 : ℚ) * p.st)

/-- One player's full contribution: the role base followed by the
position fine-tuning (`pos = p.position.upper()`; the `*=`/`+=` block). -/
def playerContrib (p : Player) : ℚ × ℚ :=
  let pos := upperStr p.position
  let atk := (roleContrib p).1
  let deff := (roleContrib p).2
  if pos = "DL" ∨ pos = "DR" then
    (atk * (105/100 : ℚ) + ((5/100 : ℚ) * p.sp + (5/100 : ℚ) * p.pa), deff * (97/100 : ℚ))
  else if pos = "DC" ∨ pos = "DCL" ∨ pos = "DCR" then
    (atk, deff * (105/100 : ℚ) + ((5/100 : ℚ) * p.tk + (5/100 : ℚ) * p.he))
  else if pos = "ML" ∨ pos = "MR" ∨ pos = "AML" ∨ pos = "AMR" ∨ pos = "STL" ∨ pos = "STR" then
    (atk * (105/100 : ℚ) + ((5/100 : ℚ) * p.sp + (5/100 : ℚ) * p.sh), deff)
  else
    (atk, deff)

/-- `compute_line_ratings`: returns `(attack_rating, defense_rating)`. -/
def compute_line_ratings (team : Team) : ℚ × ℚ :=
  let base_q := average_q team
  let raw := team.players.foldl
    (fun acc p => (acc.1 + (playerContrib p).1, acc.2 + (playerContrib p).2))
    ((0 : ℚ), (0 : ℚ))
  let atk_raw := if team.players = [] then raw.1 else raw.1 / (team.players.length : ℚ)
  let def_raw := if team.players = [] then raw.2 else raw.2 / (team.players.length : ℚ)
  let s := team.stats
  let atk_mod := (6/100 : ℚ) * (s.attacking - 50) / 50 + (3/100 : ℚ) * (s.teamplay - 50) / 50
    + (3/100 : ℚ) * (s.understanding - 50) / 50 + (2/100 : ℚ) * (s.counter_attacking - 50) / 50
    + (1/100 : ℚ) * (s.free_kick - 50) / 50 + (1/100 : ℚ) * (s.corner - 50) / 50
  let def_mod := (6/100 : ℚ) * (s.defending - 50) / 50 + (3/100 : ℚ) * (s.offside - 50) / 50
  let home_atk : ℚ := if team.home then (5/10 : ℚ) else 0
  let home_def : ℚ := if team.home then (5/10 : ℚ) else 0
  let attack_rating := base_q + atk_raw * (15/100 : ℚ) + atk_mod * 5 + home_atk
  let defense_rating := base_q + def_raw * (15/100 : ℚ) + def_mod * 5 + home_def
  let p_press := lowerStr team.pressure
  if p_press = "attacking" then
    (attack_rating + 1, defense_rating - (5/10 : ℚ))
  else if p_press = "defending" then
    (attack_rating - (5/10 : ℚ), defense_rating + 1)
  else if p_press = "counter-attacking" then
    (attack_rating + (5/10 : ℚ) * ((s.counter_attacking - 50) / 50), defense_rating + (2/10 : ℚ))
  else
    (attack_rating, defense_rating)

/-- The 4-tuple `(atk_a, def_a, atk_b, def_b)` of `compute_effective_strengths`. -/
structure EffStrengths where
  atk_a : ℚ
  def_a : ℚ
  atk_b : ℚ
  def_b : ℚ
deriving DecidableEq

/-- `compute_effective_strengths`: line ratings plus style/formation bonuses. -/
def compute_effective_strengths (team_a team_b : Team) : EffStrengths :=
  let ra := compute_line_ratings team_a
  let rb := compute_line_ratings team_b
  let style_bonus_a := style_match_bonus team_a.style team_b.style
  let style_bonus_b := style_match_bonus team_b.style team_a.style
  let form_bonus_a := formation_match_bonus team_a.formation team_b.formation
  let form_bonus_b := formation_match_bonus team_b.formation team_a.formation
  { atk_a := ra.1 + style_bonus_a + form_bonus_a
    def_a := ra.2 + style_bonus_a * (3/10 : ℚ) + form_bonus_a * (3/10 : ℚ)
    atk_b := rb.1 + style_bonus_b + form_bonus_b
    def_b := rb.2 + style_bonus_b * (3/10 : ℚ) + form_bonus_b * (3/10 : ℚ) }

/-- The inner `while p > L` loop of `poisson_sample`, with explicit fuel and
the uniform stream `us` consumed at a running draw index `i`; state is
`(k, p)`; on exit it returns `(k - 1, next draw index)`. -/
def poissonLoop (L : ℚ) (us : ℕ → ℚ) : ℕ → ℕ → ℕ → ℚ → Option (ℤ × ℕ)
  | 0, _, _, _ => none
  | fuel + 1, i, k, p =>
    if p > L then poissonLoop L us fuel (i + 1) (k + 1) (p * us i)
    else some ((k : ℤ) - 1, i)

/-- `poisson_sample`: `L = exp(-max(lmbda, 0.01))`, with `exp(-x)` abstracted
as the parameter `expNeg`; starts with `k = 0, p = 1`. -/
def poisson_sample (lmbda : ℚ) (expNeg : ℚ → ℚ) (us : ℕ → ℚ) (fuel i : ℕ) :
    Option (ℤ × ℕ) :=
  poissonLoop (expNeg (max lmbda (1/100 : ℚ))) us fuel i 0 1

/-- Modelled from the spec, section 4.4: `sampleGoals(lambda)` with
`L = exp(−lambda)` (no inner clamp), same Knuth loop. -/
def sampleGoalsSpec (lmbda : ℚ) (expNeg : ℚ → ℚ) (us : ℕ → ℚ) (fuel i : ℕ) :
    Option (ℤ × ℕ) :=
  poissonLoop (expNeg lmbda) us fuel i 0 1

/-- The two Poisson means of `simulate_single_match`:
`lambda_x = max(0.1, 1.3 + diff_x * 0.05)`. -/
def match_lambdas (team_a team_b : Team) : ℚ × ℚ :=
  let s := compute_effective_strengths team_a team_b
  let diff_a := s.atk_a - s.def_b
  let diff_b := s.atk_b - s.def_a
  (max (1/10 : ℚ) ((13/10 : ℚ) + diff_a * (5/100 : ℚ)), max (1/10 : ℚ) ((13/10 : ℚ) + diff_b * (5/100 : ℚ)))

/-- `simulate_single_match`: one Poisson draw per side, threading the
draw index through the shared random stream. -/
def simulate_single_match (team_a team_b : Team) (expNeg : ℚ → ℚ)
    (us : ℕ → ℚ) (fuel i : ℕ) : Option (ℤ × ℤ × ℕ) :=
  let lam := match_lambdas team_a team_b
  match poisson_sample lam.1 expNeg us fuel i with
  | none => none
  | some (goals_a, i1) =>
    match poisson_sample lam.2 expNeg us fuel i1 with
    | none => none
    | some (goals_b, i2) => some (goals_a, goals_b, i2)

/-- `scores[(ga, gb)] = scores.get((ga, gb), 0) + 1` on an association list. -/
def bump (scores : List ((ℤ × ℤ) × ℕ)) (key : ℤ × ℤ) : List ((ℤ × ℤ) × ℕ) :=
  match scores with
  | [] => [(key, 1)]
  | (k, v) :: rest => if k = key then (k, v + 1) :: rest else (k, v) :: bump rest key

/-- Total of the occurrence counts in a scoreline tally. -/
def sumVals (scores : List ((ℤ × ℤ) × ℕ)) : ℕ :=
  (scores.map Prod.snd).sum

/-- Python exceptions that the series aggregator can raise. -/
inductive PyError where
  | zeroDivision
deriving DecidableEq

/-- The tuple returned by `simulate_series`:
`(win %, draw %, win %, scoreline tally)`. -/
structure SeriesResult where
  winRateA : ℚ
  drawRate : ℚ
  winRateB : ℚ
  scores : List ((ℤ × ℤ) × ℕ)
deriving DecidableEq

/-- The `for _ in range(n_matches)` loop of `simulate_series`: runs `m`
fixtures, classifying each as win A / win B / draw and bumping the tally;
`none` models running out of sampler fuel. -/
def series_loop (team_a team_b : Team) (expNeg : ℚ → ℚ) (us : ℕ → ℚ) (fuel : ℕ) :
    ℕ → ℕ → ℕ → ℕ → List ((ℤ × ℤ) × ℕ) → ℕ →
    Option (ℕ × ℕ × ℕ × List ((ℤ × ℤ) × ℕ) × ℕ)
  | 0, win_a, draw, win_b, scores, i => some (win_a, draw, win_b, scores, i)
  | m + 1, win_a, draw, win_b, scores, i =>
    match simulate_single_match team_a team_b expNeg us fuel i with
    | none => none
    | some (ga, gb, i1) =>
      if ga > gb then
        series_loop team_a team_b expNeg us fuel m (win_a + 1) draw win_b (bump scores (ga, gb)) i1
      else if gb > ga then
        series_loop team_a team_b expNeg us fuel m win_a draw (win_b + 1) (bump scores (ga, gb)) i1
      else
        series_loop team_a team_b expNeg us fuel m win_a (draw + 1) win_b (bump scores (ga, gb)) i1

/-- `simulate_series`: `range(n_matches)` iterations (empty when
`n_matches ≤ 0`), then the three percentage divisions; dividing by
`n_matches = 0` raises `ZeroDivisionError`. -/
def simulate_series (team_a team_b : Team) (n_matches : ℤ) (expNeg : ℚ → ℚ)
    (us : ℕ → ℚ) (fuel : ℕ) : Option (Except PyError SeriesResult) :=
  match series_loop team_a team_b expNeg us fuel n_matches.toNat 0 0 0 [] 0 with
  | none => none
  | some (win_a, draw, win_b, scores, _) =>
    some (if n_matches = 0 then Except.error PyError.zeroDivision
          else Except.ok
            { winRateA := 100 * (win_a : ℚ) / (n_matches : ℚ)
              drawRate := 100 * (draw : ℚ) / (n_matches : ℚ)
              winRateB := 100 * (win_b : ℚ) / (n_matches : ℚ)
              scores := scores })

instance : DecidableEq (Except PyError SeriesResult) := fun a b =>
  match a, b with
  | Except.error x, Except.error y =>
    decidable_of_iff (x = y) (by simp)
  | Except.ok x, Except.ok y =>
    decidable_of_iff (x = y) (by simp)
  | Except.error _, Except.ok _ => isFalse (by simp)
  | Except.ok _, Except.error _ => isFalse (by simp)

/-- Outcome of the simulation button in `main`. -/
inductive UiOutcome where
  | rosterError (team : String) (count : ℕ)
  | simulated (r : Option (Except PyError SeriesResult))
deriving DecidableEq

/-- The guard in `main` before `simulate_series` is invoked: each roster
must have exactly 11 checked players or an error is shown and the core is
never called. -/
def run_simulation (team_a team_b : Team) (n_matches : ℤ) (expNeg : ℚ → ℚ)
    (us : ℕ → ℚ) (fuel : ℕ) : UiOutcome :=
  if team_a.players.length ≠ 11 then
    UiOutcome.rosterError team_a.name team_a.players.length
  else if team_b.players.length ≠ 11 then
    UiOutcome.rosterError team_b.name team_b.players.length
  else
    UiOutcome.simulated (simulate_series team_a team_b n_matches expNeg us fuel)

/-- Modelled from the spec, section 4.1 step 2: the per-player role-weighted
contribution, depending only on role and attributes; the Goalkeeper's attack
contribution is "negligible/zero", taken as zero. -/
def specContrib (p : Player) : ℚ × ℚ :=
  if p.role = "Att" then
    ((35/100 : ℚ) * p.sh + (25/100 : ℚ) * p.pa + (10/100 : ℚ) * p.kp + (15/100 : ℚ) * p.sp + (5/100 : ℚ) * p.he + (10/100 : ℚ) * p.q,
     (15/100 : ℚ) * p.tk + (10/100 : ℚ) * p.bc + (5/100 : ℚ) * p.st)
  else if p.role = "Mid" then
    ((25/100 : ℚ) * p.sh + (30/100 : ℚ) * p.pa + (15/100 : ℚ) * p.kp + (10/100 : ℚ) * p.sp + (5/100 : ℚ) * p.he + (5/100 : ℚ) * p.q,
     (25/100 : ℚ) * p.tk + (10/100 : ℚ) * p.bc + (5/100 : ℚ) * p.st)
  else if p.role = "Def" then
    ((5/100 : ℚ) * p.pa + (5/100 : ℚ) * p.he,
     (35/100 : ℚ) * p.tk + (20/100 : ℚ) * p.he + (15/100 : ℚ) * p.st + (15/100 : ℚ) * p.bc + (5/100 : ℚ) * p.q)
  else
    (0, (40/100 : ℚ) * p.q + (15/100 : ℚ) * p.bc + (10/100 : ℚ) * p.st)

/-- Per-player contribution of the amended claim: the spec's role table with
the Goalkeeper contributing `0.02·Passing` to attack, followed by the
position fine-tuning on `position.upper()` described in C4. -/
def specContribAmended (p : Player) : ℚ × ℚ :=
  let base :=
    if p.role = "Att" then
      ((35/100 : ℚ) * p.sh + (25/100 : ℚ) * p.pa + (10/100 : ℚ) * p.kp + (15/100 : ℚ) * p.sp + (5/100 : ℚ) * p.he + (10/100 : ℚ) * p.q,
       (15/100 : ℚ) * p.tk + (10/100 : ℚ) * p.bc + (5/100 : ℚ) * p.st)
    else if p.role = "Mid" then
      ((25/100 : ℚ) * p.sh + (30/100 : ℚ) * p.pa + (15/100 : ℚ) * p.kp + (10/100 : ℚ) * p.sp + (5/100 : ℚ) * p.he + (5/100 : ℚ) * p.q,
       (25/100 : ℚ) * p.tk + (10/100 : ℚ) * p.bc + (5/100 : ℚ) * p.st)
    else if p.role = "Def" then
      ((5/100 : ℚ) * p.pa + (5/100 : ℚ) * p.he,
       (35/100 : ℚ) * p.tk + (20/100 : ℚ) * p.he + (15/100 : ℚ) * p.st + (15/100 : ℚ) * p.bc + (5/100 : ℚ) * p.q)
    else
      ((2/100 : ℚ) * p.pa, (40/100 : ℚ) * p.q + (15/100 : ℚ) * p.bc + (10/100 : ℚ) * p.st)
  let pos := upperStr p.position
  if pos = "DL" ∨ pos = "DR" then
    (base.1 * (105/100 : ℚ) + ((5/100 : ℚ) * p.sp + (5/100 : ℚ) * p.pa), base.2 * (97/100 : ℚ))
  else if pos = "DC" ∨ pos = "DCL" ∨ pos = "DCR" then
    (base.1, base.2 * (105/100 : ℚ) + ((5/100 : ℚ) * p.tk + (5/100 : ℚ) * p.he))
  else if pos = "ML" ∨ pos = "MR" ∨ pos = "AML" ∨ pos = "AMR" ∨ pos = "STL" ∨ pos = "STR" then
    (base.1 * (105/100 : ℚ) + ((5/100 : ℚ) * p.sp + (5/100 : ℚ) * p.sh), base.2)
  else
    base

/-- Modelled from the spec, section 4.1 steps 1 and 3 to 7, parameterized by
the per-player step-2 contribution: averages divided by the roster size 11,
stat modifiers around the midpoint 50, home bonus, and the pressure
adjustment applied last. -/
def specPipeline (contrib : Player → ℚ × ℚ) (team : Team) : ℚ × ℚ :=
  let baseQuality := (team.players.map Player.q).sum / 11
  let attackRaw := (team.players.map (fun p => (contrib p).1)).sum / 11
  let defenseRaw := (team.players.map (fun p => (contrib p).2)).sum / 11
  let s := team.stats
  let attackMod := (6/100 : ℚ) * (s.attacking - 50) / 50 + (3/100 : ℚ) * (s.teamplay - 50) / 50
    + (3/100 : ℚ) * (s.understanding - 50) / 50 + (2/100 : ℚ) * (s.counter_attacking - 50) / 50
    + (1/100 : ℚ) * (s.free_kick - 50) / 50 + (1/100 : ℚ) * (s.corner - 50) / 50
  let defenseMod := (6/100 : ℚ) * (s.defending - 50) / 50 + (3/100 : ℚ) * (s.offside - 50) / 50
  let homeAtk : ℚ := if team.home then (5/10 : ℚ) else 0
  let homeDef : ℚ := if team.home then (5/10 : ℚ) else 0
  let attackRating := baseQuality + attackRaw * (15/100 : ℚ) + attackMod * 5 + homeAtk
  let defenseRating := baseQuality + defenseRaw * (15/100 : ℚ) + defenseMod * 5 + homeDef
  let press := lowerStr team.pressure
  if press = "attacking" then
    (attackRating + 1, defenseRating - (5/10 : ℚ))
  else if press = "defending" then
    (attackRating - (5/10 : ℚ), defenseRating + 1)
  else if press = "counter-attacking" then
    (attackRating + (5/10 : ℚ) * ((s.counter_attacking - 50) / 50), defenseRating + (2/10 : ℚ))
  else
    (attackRating, defenseRating)

/-- Modelled from the spec, section 4.1 verbatim: role-only step-2
contributions. -/
def specLineRatings (team : Team) : ℚ × ℚ :=
  specPipeline specContrib team

/-- The section 4.1 algorithm amended with position fine-tuning and the
Goalkeeper's `0.02·Passing` attack contribution. -/
def specLineRatingsAmended (team : Team) : ℚ × ℚ :=
  specPipeline specContribAmended team

/-- An attribute value inside the data-model range `[0, 100]`. -/
def attrOk (x : ℚ) : Prop := 0 ≤ x ∧ x ≤ 100

instance (x : ℚ) : Decidable (attrOk x) := by
  unfold attrOk
  infer_instance

/-- Style tokens offered by the UI. -/
def STYLE_OPTIONS : List String := ["mixed", "continental", "longballs"]

/-- Formation tokens offered by the UI. -/
def FORMATION_OPTIONS : List String := ["4-4-2", "4-5-1", "4-3-3", "3-5-2", "3-4-3", "5-4-1"]

/-- Pressure tokens offered by the UI. -/
def PRESSURE_OPTIONS : List String := ["normal", "attacking", "defending", "counter-attacking"]

/-- Data-model invariants on a player: known role, attributes in `[0,100]`. -/
def PlayerValid (p : Player) : Prop :=
  p.role ∈ ROLE_OPTIONS ∧
  attrOk p.q ∧ attrOk p.kp ∧ attrOk p.tk ∧ attrOk p.pa ∧ attrOk p.sh ∧
  attrOk p.he ∧ attrOk p.sp ∧ attrOk p.st ∧ attrOk p.pe ∧ attrOk p.bc

instance (p : Player) : Decidable (PlayerValid p) := by
  unfold PlayerValid
  infer_instance

/-- Data-model invariants on a team configuration: exactly 11 valid players,
known style/formation/pressure tokens, team stats in `[0,100]`. -/
def TeamValid (t : Team) : Prop :=
  t.players.length = 11 ∧ (∀ p ∈ t.players, PlayerValid p) ∧
  t.style ∈ STYLE_OPTIONS ∧ t.formation ∈ FORMATION_OPTIONS ∧
  t.pressure ∈ PRESSURE_OPTIONS ∧
  attrOk t.stats.attacking ∧ attrOk t.stats.defending ∧
  attrOk t.stats.counter_attacking ∧ attrOk t.stats.offside ∧
  attrOk t.stats.free_kick ∧ attrOk t.stats.corner ∧
  attrOk t.stats.penalty ∧ attrOk t.stats.understanding ∧
  attrOk t.stats.teamplay

instance (t : Team) : Decidable (TeamValid t) := by
  unfold TeamValid
  infer_instance

/-- The role and the ten attributes of a player, everything but name, age
and position. -/
def roleAttrs (p : Player) : String × List ℚ :=
  (p.role, [p.q, p.kp, p.tk, p.pa, p.sh, p.he, p.sp, p.st, p.pe, p.bc])

/-- Helper constructor for concrete players. -/
def mkPlayer (role pos : String) (q kp tk pa sh he sp stm pe bc : ℚ) : Player :=
  { name := "p", age := 20, role := role, position := pos,
    q := q, kp := kp, tk := tk, pa := pa, sh := sh,
    he := he, sp := sp, st := stm, pe := pe, bc := bc }

/-- A player with every attribute zero. -/
def zeroPlayer (role pos : String) : Player :=
  mkPlayer role pos 0 0 0 0 0 0 0 0 0 0

/-- Neutral team stats, every value at the midpoint 50. -/
def stats50 : TeamStats :=
  { attacking := 50, defending := 50, counter_attacking := 50, offside := 50,
    free_kick := 50, corner := 50, penalty := 50, understanding := 50,
    teamplay := 50 }

/-- A neutral team around a given roster: 4-4-2, mixed, normal pressure,
midpoint stats, not at home. -/
def baseTeam (ps : List Player) : Team :=
  { name := "T", players := ps, formation := "4-4-2", style := "mixed",
    pressure := "normal", stats := stats50, home := false }

/-- Ten all-zero players; all their contributions vanish. -/
def commonPlayers : List Player :=
  [zeroPlayer "Gk" "GK", zeroPlayer "Def" "DC", zeroPlayer "Def" "DCL",
   zeroPlayer "Def" "DCR", zeroPlayer "Def" "DR", zeroPlayer "Mid" "MC",
   zeroPlayer "Mid" "MCL", zeroPlayer "Mid" "MCR", zeroPlayer "Att" "ST",
   zeroPlayer "Att" "STR"]

/-- An 11-player all-zero team. -/
def team11 : Team := baseTeam (zeroPlayer "Mid" "ML" :: commonPlayers)

/-- A 10-player team: one player short of the invariant. -/
def team10 : Team := baseTeam commonPlayers

/-- Eleven players, the extra midfielder centrally at MC with Shooting 100. -/
def cxPosA : Team :=
  baseTeam (mkPlayer "Mid" "MC" 0 0 0 0 100 0 0 0 0 0 :: commonPlayers)

/-- The same eleven players, the extra midfielder wide at ML instead. -/
def cxPosB : Team :=
  baseTeam (mkPlayer "Mid" "ML" 0 0 0 0 100 0 0 0 0 0 :: commonPlayers)

/-! ## Helper lemmas -/

theorem lookup_eq_none_of_not_mem (l : List ((String × String) × ℚ))
    (k : String × String) (h : k ∉ l.map Prod.fst) : l.lookup k = none := by
  induction l with
  | nil => rfl
  | cons a tl ih =>
    obtain ⟨ka, va⟩ := a
    simp only [List.map_cons, List.mem_cons, not_or] at h
    have hk : (k == ka) = false := beq_eq_false_iff_ne.mpr h.1
    simp [List.lookup, hk, ih h.2]

/-! ## Claims -/

/-- C6: `style_match_bonus(X, X) = 0` for every style `X`; for distinct
styles among the three tokens the bonus is antisymmetric; in the 3-cycle
longballs beats continental, continental beats mixed, mixed beats
longballs, the favored side receives `+2.0` and the disfavored `-2.0`. -/
theorem c6_style_antisymmetry :
    (∀ s : String, style_match_bonus s s = 0) ∧
    (∀ x ∈ STYLE_OPTIONS, ∀ y ∈ STYLE_OPTIONS, x ≠ y →
      style_match_bonus x y = - style_match_bonus y x) ∧
    style_match_bonus "longballs" "continental" = 2 ∧
    style_match_bonus "continental" "mixed" = 2 ∧
    style_match_bonus "mixed" "longballs" = 2 ∧
    style_match_bonus "continental" "longballs" = -2 ∧
    style_match_bonus "mixed" "continental" = -2 ∧
    style_match_bonus "longballs" "mixed" = -2 := by
  refine ⟨fun s => by simp [style_match_bonus], by decide,
    by decide, by decide, by decide, by decide, by decide, by decide⟩

/-- Witness for C6 at concrete styles. -/
theorem c6_witness :
    style_match_bonus "mixed" "mixed" = 0 ∧
    style_match_bonus "mixed" "continental" = - style_match_bonus "continental" "mixed" :=
  ⟨c6_style_antisymmetry.1 "mixed",
   c6_style_antisymmetry.2.1 "mixed" (by decide) "continental" (by decide) (by decide)⟩

/-- C10: the formation table gives `+1.0` for `("4-4-2","3-5-2")`, `-1.0`
for the reverse, and every ordered pair missing from the six-entry table
(for example `("4-4-2","4-1-1")`) yields exactly `0.0`. -/
theorem c10_formation_table :
    formation_match_bonus "4-4-2" "3-5-2" = 1 ∧
    formation_match_bonus "3-5-2" "4-4-2" = -1 ∧
    formation_match_bonus "4-4-2" "4-1-1" = 0 ∧
    ∀ my opp : String, (my, opp) ∉ FORMATION_MATCHUPS.map Prod.fst →
      formation_match_bonus my opp = 0 := by
  refine ⟨by decide, by decide, by decide, fun my opp h => ?_⟩
  unfold formation_match_bonus
  rw [lookup_eq_none_of_not_mem _ _ h]
  rfl

/-- Witness for C10 at the unlisted pair `("4-4-2","4-1-1")`. -/
theorem c10_witness : formation_match_bonus "4-4-2" "4-1-1" = 0 :=
  c10_formation_table.2.2.2 "4-4-2" "4-1-1" (by decide)

/-- C7: with roster, stats, style, formation and pressure fixed, the
ratings with `home = true` are exactly `(attack + 0.5, defense + 0.5)`
relative to `home = false`. -/
theorem c7_home_bonus (t : Team) :
    compute_line_ratings { t with home := true } =
      ((compute_line_ratings { t with home := false }).1 + (5/10 : ℚ),
       (compute_line_ratings { t with home := false }).2 + (5/10 : ℚ)) := by
  simp [compute_line_ratings, average_q, Prod.ext_iff]
  split_ifs <;> constructor <;> ring

/-- C8: each side's Poisson mean is `max(0.1, 1.3 + 0.05·(attackSelf −
defenseOpponent))`; the value is always at least `0.1`, hence strictly
positive, and the clamp is a pure function, never an error. -/
theorem c8_lambda_clamp (team_a team_b : Team) :
    (match_lambdas team_a team_b).1 =
      max (1/10 : ℚ) ((13/10 : ℚ) + (5/100 : ℚ) * ((compute_effective_strengths team_a team_b).atk_a -
        (compute_effective_strengths team_a team_b).def_b)) ∧
    (match_lambdas team_a team_b).2 =
      max (1/10 : ℚ) ((13/10 : ℚ) + (5/100 : ℚ) * ((compute_effective_strengths team_a team_b).atk_b -
        (compute_effective_strengths team_a team_b).def_a)) ∧
    (1/10 : ℚ) ≤ (match_lambdas team_a team_b).1 ∧ 0 < (match_lambdas team_a team_b).1 ∧
    (1/10 : ℚ) ≤ (match_lambdas team_a team_b).2 ∧ 0 < (match_lambdas team_a team_b).2 := by
  simp only [match_lambdas]
  refine ⟨by rw [mul_comm], by rw [mul_comm], le_max_left _ _,
    lt_of_lt_of_le (by norm_num) (le_max_left _ _), le_max_left _ _,
    lt_of_lt_of_le (by norm_num) (le_max_left _ _)⟩

theorem poissonLoop_nonneg (L : ℚ) (us : ℕ → ℚ) :
    ∀ (fuel i k : ℕ) (p : ℚ) (v : ℤ) (j : ℕ), 1 ≤ k →
      poissonLoop L us fuel i k p = some (v, j) → 0 ≤ v := by
  intro fuel
  induction fuel with
  | zero =>
    intro i k p v j hk h
    exact absurd h (by simp [poissonLoop])
  | succ n ih =>
    intro i k p v j hk h
    rw [poissonLoop] at h
    split at h
    · exact ih _ _ _ _ _ (by omega) h
    · obtain ⟨hv, -⟩ : (k : ℤ) - 1 = v ∧ i = j := by simpa using h
      omega

/-- C9: for every `lambda ≥ 0.1` and every uniform stream, the source
sampler agrees with the spec's Knuth-method `sampleGoals` (the source's
inner clamp `max(lambda, 0.01)` is the identity there), and whenever it
returns — given that `L = exp(−lambda) < 1`, which holds for every
`lambda ≥ 0.1` — the returned goal count is non-negative. -/
theorem c9_sampler (lmbda : ℚ) (expNeg : ℚ → ℚ) (us : ℕ → ℚ) (fuel i : ℕ)
    (hl : (1/10 : ℚ) ≤ lmbda) :
    poisson_sample lmbda expNeg us fuel i = sampleGoalsSpec lmbda expNeg us fuel i ∧
    (expNeg lmbda < 1 →
      ∀ (v : ℤ) (j : ℕ), poisson_sample lmbda expNeg us fuel i = some (v, j) → 0 ≤ v) := by
  have hmax : max lmbda (1/100 : ℚ) = lmbda :=
    max_eq_left (le_trans (by norm_num) hl)
  constructor
  · unfold poisson_sample sampleGoalsSpec
    rw [hmax]
  · intro hL v j h
    unfold poisson_sample at h
    rw [hmax] at h
    cases fuel with
    | zero => exact absurd h (by simp [poissonLoop])
    | succ n =>
      rw [poissonLoop] at h
      rw [if_pos (show (1 : ℚ) > expNeg lmbda from hL)] at h
      exact poissonLoop_nonneg (expNeg lmbda) us n (i + 1) 1 (1 * us i) v j le_rfl h

/-- Witness for C9: `lambda = 1`, `L = 1/2`, draws all zero; the sampler
returns goal count 0 after one loop pass. -/
theorem c9_witness :
    poisson_sample 1 (fun _ => (1/2 : ℚ)) (fun _ => 0) 3 0 =
      sampleGoalsSpec 1 (fun _ => (1/2 : ℚ)) (fun _ => 0) 3 0 ∧ (0 : ℤ) ≤ 0 :=
  ⟨(c9_sampler 1 (fun _ => (1/2 : ℚ)) (fun _ => 0) 3 0 (by norm_num)).1,
   (c9_sampler 1 (fun _ => (1/2 : ℚ)) (fun _ => 0) 3 0 (by norm_num)).2
     (by norm_num) 0 1 (by decide)⟩

/-- C4: after the role-weighted base, full-backs DL/DR get attack scaled by
1.05 plus `0.05·Speed + 0.05·Passing` with defense scaled by 0.97; central
defenders DC/DCL/DCR get defense scaled by 1.05 plus `0.05·Tackling +
0.05·Heading`; wide midfielders/attackers ML/MR/AML/AMR/STL/STR get attack
scaled by 1.05 plus `0.05·Speed + 0.05·Shooting`; a Goalkeeper contributes
`0.02·Passing` to attack; and two valid rosters identical in roles and
attributes but differing in one position produce different ratings. -/
theorem c4_position_dependence :
    (∀ p : Player, upperStr p.position = "DL" ∨ upperStr p.position = "DR" →
      playerContrib p = ((roleContrib p).1 * (105/100 : ℚ) +
        ((5/100 : ℚ) * p.sp + (5/100 : ℚ) * p.pa), (roleContrib p).2 * (97/100 : ℚ))) ∧
    (∀ p : Player, upperStr p.position = "DC" ∨ upperStr p.position = "DCL" ∨
        upperStr p.position = "DCR" →
      playerContrib p = ((roleContrib p).1, (roleContrib p).2 * (105/100 : ℚ) +
        ((5/100 : ℚ) * p.tk + (5/100 : ℚ) * p.he))) ∧
    (∀ p : Player, upperStr p.position = "ML" ∨ upperStr p.position = "MR" ∨
        upperStr p.position = "AML" ∨ upperStr p.position = "AMR" ∨
        upperStr p.position = "STL" ∨ upperStr p.position = "STR" →
      playerContrib p = ((roleContrib p).1 * (105/100 : ℚ) +
        ((5/100 : ℚ) * p.sp + (5/100 : ℚ) * p.sh), (roleContrib p).2)) ∧
    (∀ p : Player, p.role = "Gk" → (roleContrib p).1 = (2/100 : ℚ) * p.pa) ∧
    TeamValid cxPosA ∧ TeamValid cxPosB ∧
    cxPosA.players.map roleAttrs = cxPosB.players.map roleAttrs ∧
    compute_line_ratings cxPosA ≠ compute_line_ratings cxPosB := by
  refine ⟨fun p hpos => ?_, fun p hpos => ?_, fun p hpos => ?_, fun p hrole => ?_,
    by decide, by decide, by decide, by decide⟩
  · simp only [playerContrib]
    rw [if_pos hpos]
  · have h1 : ¬(upperStr p.position = "DL" ∨ upperStr p.position = "DR") := by
      rcases hpos with h | h | h <;> rw [h] <;> decide
    simp only [playerContrib]
    rw [if_neg h1, if_pos hpos]
  · have h1 : ¬(upperStr p.position = "DL" ∨ upperStr p.position = "DR") := by
      rcases hpos with h | h | h | h | h | h <;> rw [h] <;> decide
    have h2 : ¬(upperStr p.position = "DC" ∨ upperStr p.position = "DCL" ∨
        upperStr p.position = "DCR") := by
      rcases hpos with h | h | h | h | h | h <;> rw [h] <;> decide
    simp only [playerContrib]
    rw [if_neg h1, if_neg h2, if_pos hpos]
  · simp only [roleContrib]
    rw [hrole]
    rw [if_neg (by decide), if_neg (by decide), if_neg (by decide)]

/-- Witness for C4 at a concrete wide midfielder. -/
theorem c4_witness :
    playerContrib (mkPlayer "Mid" "ML" 0 0 0 0 100 0 0 0 0 0) =
      ((roleContrib (mkPlayer "Mid" "ML" 0 0 0 0 100 0 0 0 0 0)).1 * (105/100 : ℚ) +
        ((5/100 : ℚ) * (mkPlayer "Mid" "ML" 0 0 0 0 100 0 0 0 0 0).sp +
         (5/100 : ℚ) * (mkPlayer "Mid" "ML" 0 0 0 0 100 0 0 0 0 0).sh),
       (roleContrib (mkPlayer "Mid" "ML" 0 0 0 0 100 0 0 0 0 0)).2) :=
  c4_position_dependence.2.2.1 (mkPlayer "Mid" "ML" 0 0 0 0 100 0 0 0 0 0)
    (by decide)

theorem foldl_pair_sum (f g : Player → ℚ) (l : List Player) (a b : ℚ) :
    l.foldl (fun acc p => (acc.1 + f p, acc.2 + g p)) (a, b) =
      (a + (l.map f).sum, b + (l.map g).sum) := by
  induction l generalizing a b with
  | nil => simp
  | cons p tl ih =>
    simp only [List.foldl_cons, List.map_cons, List.sum_cons, ih]
    rw [Prod.mk.injEq]
    constructor <;> ring

theorem contribAmended_eq : specContribAmended = playerContrib := by
  funext p
  simp only [specContribAmended, playerContrib, roleContrib]

/-- C1 counterexample: a valid team configuration (one wide midfielder with
Shooting 100 at position ML) on which `compute_line_ratings` differs from
the spec's section 4.1 algorithm, because the code additionally applies
position fine-tuning that the claimed algorithm omits. -/
theorem c1_counterexample :
    TeamValid cxPosB ∧ compute_line_ratings cxPosB ≠ specLineRatings cxPosB := by
  decide

/-- C1 amended: for every team configuration satisfying the data-model
invariants, `compute_line_ratings` returns exactly the section 4.1 pair
once the step-2 per-player contributions are amended to include the
position fine-tuning of C4 and the Goalkeeper's `0.02·Passing` attack
contribution; averaging, stat modifiers, home bonus and the final pressure
adjustment are exactly as claimed. -/
theorem c1_amended_line_ratings (t : Team) (h : TeamValid t) :
    compute_line_ratings t = specLineRatingsAmended t := by
  obtain ⟨hlen, -⟩ := h
  have hne : t.players ≠ [] := by
    intro hnil
    rw [hnil] at hlen
    simp at hlen
  simp only [compute_line_ratings, specLineRatingsAmended, specPipeline, average_q,
    contribAmended_eq, foldl_pair_sum, if_neg hne, hlen, zero_add]
  norm_num

/-- Witness for the amended C1 at a concrete valid team. -/
theorem c1_witness :
    TeamValid team11 ∧ compute_line_ratings team11 = specLineRatingsAmended team11 :=
  ⟨by decide, c1_amended_line_ratings team11 (by decide)⟩

/-- C2 counterexample: with valid teams and `matchCount = -1 < 1`, the code
raises nothing and returns a `SeriesResult` (all rates zero, empty tally),
contradicting the claim that every `matchCount < 1` raises
`InvalidRequestError` and returns no result. -/
theorem c2_counterexample :
    TeamValid team11 ∧
    simulate_series team11 team11 (-1) (fun _ => (1/2 : ℚ)) (fun _ => 0) 3 =
      some (Except.ok { winRateA := 0, drawRate := 0, winRateB := 0, scores := [] }) := by
  decide

/-- C2 amended: `simulate_series` performs no validation of `matchCount`;
no simulation is run when `matchCount < 1`, and at `matchCount = 0` the
percentage division raises `ZeroDivisionError` (not `InvalidRequestError`,
which exists nowhere in the code), while for negative `matchCount` it
silently returns a degenerate `SeriesResult` with all rates 0 and an empty
frequency map. -/
theorem c2_amended_series_guard (team_a team_b : Team) (expNeg : ℚ → ℚ)
    (us : ℕ → ℚ) (fuel : ℕ) :
    simulate_series team_a team_b 0 expNeg us fuel =
      some (Except.error PyError.zeroDivision) ∧
    ∀ n : ℤ, n < 0 →
      simulate_series team_a team_b n expNeg us fuel =
        some (Except.ok { winRateA := 0, drawRate := 0, winRateB := 0, scores := [] }) := by
  constructor
  · simp [simulate_series, series_loop]
  · intro n hn
    have ht : n.toNat = 0 := Int.toNat_of_nonpos (le_of_lt hn)
    have hne : n ≠ 0 := by omega
    simp [simulate_series, ht, series_loop, hne]

/-- Witness for the amended C2 at `matchCount = -1`. -/
theorem c2_witness :
    simulate_series team11 team11 (-1) (fun _ => (1/2 : ℚ)) (fun _ => 0) 3 =
      some (Except.ok { winRateA := 0, drawRate := 0, winRateB := 0, scores := [] }) :=
  (c2_amended_series_guard team11 team11 (fun _ => (1/2 : ℚ)) (fun _ => 0) 3).2
    (-1) (by norm_num)

/-- C3 counterexample: a 10-player roster reaching the simulation core is
not rejected: `simulate_series` computes ratings and returns a full
`SeriesResult` for it, raising no `ConfigurationError`. -/
theorem c3_counterexample :
    team10.players.length = 10 ∧
    simulate_series team10 team10 1 (fun _ => (1/2 : ℚ)) (fun _ => 0) 3 =
      some (Except.ok { winRateA := 0, drawRate := 100, winRateB := 0,
                        scores := [((0, 0), 1)] }) := by
  decide

/-- C3 amended: the roster-size guard lives in `main`, outside the core:
when either roster length differs from 11, `main` reports the error and
never invokes `simulate_series`; the core itself performs no roster
validation and simulates any roster size. -/
theorem c3_amended_roster_guard (team_a team_b : Team) (n : ℤ) (expNeg : ℚ → ℚ)
    (us : ℕ → ℚ) (fuel : ℕ) :
    (team_a.players.length ≠ 11 →
      run_simulation team_a team_b n expNeg us fuel =
        UiOutcome.rosterError team_a.name team_a.players.length) ∧
    (team_a.players.length = 11 → team_b.players.length ≠ 11 →
      run_simulation team_a team_b n expNeg us fuel =
        UiOutcome.rosterError team_b.name team_b.players.length) := by
  constructor
  · intro h
    unfold run_simulation
    rw [if_pos h]
  · intro ha hb
    unfold run_simulation
    rw [if_neg (by simp [ha]), if_pos hb]

/-- Witness for the amended C3 at the concrete 10-player roster. -/
theorem c3_witness :
    run_simulation team10 team11 1 (fun _ => (1/2 : ℚ)) (fun _ => 0) 3 =
      UiOutcome.rosterError team10.name team10.players.length :=
  (c3_amended_roster_guard team10 team11 1 (fun _ => (1/2 : ℚ)) (fun _ => 0) 3).1
    (by decide)

theorem sumVals_bump (scores : List ((ℤ × ℤ) × ℕ)) (key : ℤ × ℤ) :
    sumVals (bump scores key) = sumVals scores + 1 := by
  induction scores with
  | nil => simp [bump, sumVals]
  | cons a tl ih =>
    obtain ⟨k, v⟩ := a
    by_cases h : k = key
    · simp [bump, h, sumVals]
      omega
    · simp [bump, h, sumVals] at ih ⊢
      omega

theorem series_loop_counts (team_a team_b : Team) (expNeg : ℚ → ℚ)
    (us : ℕ → ℚ) (fuel : ℕ) :
    ∀ (m win_a draw win_b : ℕ) (scores : List ((ℤ × ℤ) × ℕ)) (i : ℕ)
      (wa d wb : ℕ) (sc : List ((ℤ × ℤ) × ℕ)) (j : ℕ),
      series_loop team_a team_b expNeg us fuel m win_a draw win_b scores i =
        some (wa, d, wb, sc, j) →
      wa + d + wb = win_a + draw + win_b + m ∧ sumVals sc = sumVals scores + m := by
  intro m
  induction m with
  | zero =>
    intro win_a draw win_b scores i wa d wb sc j h
    obtain ⟨rfl, rfl, rfl, rfl, rfl⟩ :
        win_a = wa ∧ draw = d ∧ win_b = wb ∧ scores = sc ∧ i = j := by
      simpa [series_loop] using h
    omega
  | succ n ih =>
    intro win_a draw win_b scores i wa d wb sc j h
    rw [series_loop] at h
    rcases hm : simulate_single_match team_a team_b expNeg us fuel i with - | ⟨ga, gb, i1⟩
    · rw [hm] at h
      exact absurd h (by simp)
    · rw [hm] at h
      simp only at h
      by_cases h1 : ga > gb
      · rw [if_pos h1] at h
        obtain ⟨hc, hs⟩ := ih _ _ _ _ _ _ _ _ _ _ h
        rw [sumVals_bump] at hs
        exact ⟨by omega, by omega⟩
      · rw [if_neg h1] at h
        by_cases h2 : gb > ga
        · rw [if_pos h2] at h
          obtain ⟨hc, hs⟩ := ih _ _ _ _ _ _ _ _ _ _ h
          rw [sumVals_bump] at hs
          exact ⟨by omega, by omega⟩
        · rw [if_neg h2] at h
          obtain ⟨hc, hs⟩ := ih _ _ _ _ _ _ _ _ _ _ h
          rw [sumVals_bump] at hs
          exact ⟨by omega, by omega⟩

/-- C5: whenever `simulate_series` returns a result for `matchCount = n ≥ 1`,
the scoreline frequencies sum to `n`, the three outcome percentages are
`100·count/n` for counts that total `n` (every match is classified exactly
once), and the three percentages sum to exactly 100. -/
theorem c5_series_conservation (team_a team_b : Team) (expNeg : ℚ → ℚ)
    (us : ℕ → ℚ) (fuel : ℕ) (n : ℤ) (r : SeriesResult)
    (hn : 1 ≤ n)
    (h : simulate_series team_a team_b n expNeg us fuel = some (Except.ok r)) :
    sumVals r.scores = n.toNat ∧
    r.winRateA + r.drawRate + r.winRateB = 100 ∧
    ∃ wa d wb : ℕ, wa + d + wb = n.toNat ∧
      r.winRateA = 100 * (wa : ℚ) / (n : ℚ) ∧
      r.drawRate = 100 * (d : ℚ) / (n : ℚ) ∧
      r.winRateB = 100 * (wb : ℚ) / (n : ℚ) := by
  unfold simulate_series at h
  rcases hl : series_loop team_a team_b expNeg us fuel n.toNat 0 0 0 [] 0 with - | ⟨wa, d, wb, sc, j⟩
  · rw [hl] at h
    exact absurd h (by simp)
  · rw [hl] at h
    simp only at h
    have hne : n ≠ 0 := by omega
    rw [if_neg hne] at h
    obtain rfl :
        ({ winRateA := 100 * (wa : ℚ) / (n : ℚ), drawRate := 100 * (d : ℚ) / (n : ℚ),
           winRateB := 100 * (wb : ℚ) / (n : ℚ), scores := sc } : SeriesResult) = r := by
      simpa using h
    obtain ⟨hc, hs⟩ := series_loop_counts team_a team_b expNeg us fuel
      n.toNat 0 0 0 [] 0 wa d wb sc j hl
    simp only [sumVals] at hs
    have hcast : ((n.toNat : ℕ) : ℚ) = (n : ℚ) := by
      have := Int.toNat_of_nonneg (show (0 : ℤ) ≤ n by omega)
      exact_mod_cast congrArg (fun z : ℤ => (z : ℚ)) this
    have hq : (wa : ℚ) + (d : ℚ) + (wb : ℚ) = (n : ℚ) := by
      rw [← hcast]
      exact_mod_cast congrArg (fun k : ℕ => (k : ℚ)) (by omega : wa + d + wb = n.toNat)
    have hnq : (n : ℚ) ≠ 0 := Int.cast_ne_zero.mpr hne
    refine ⟨by simpa [sumVals] using hs, ?_, wa, d, wb, by omega, rfl, rfl, rfl⟩
    field_simp
    linarith [hq]

/-- Witness for C5: one simulated match between the all-zero valid teams;
the single fixture is a 0-0 draw, counted once, with rates 0/100/0. -/
theorem c5_witness :
    sumVals (SeriesResult.scores
      { winRateA := 0, drawRate := 100, winRateB := 0, scores := [((0, 0), 1)] }) =
        (1 : ℤ).toNat ∧
    SeriesResult.winRateA
        { winRateA := 0, drawRate := 100, winRateB := 0, scores := [((0, 0), 1)] } +
      SeriesResult.drawRate
        { winRateA := 0, drawRate := 100, winRateB := 0, scores := [((0, 0), 1)] } +
      SeriesResult.winRateB
        { winRateA := 0, drawRate := 100, winRateB := 0, scores := [((0, 0), 1)] } = 100 ∧
    ∃ wa d wb : ℕ, wa + d + wb = (1 : ℤ).toNat ∧
      SeriesResult.winRateA
          { winRateA := 0, drawRate := 100, winRateB := 0, scores := [((0, 0), 1)] } =
        100 * (wa : ℚ) / ((1 : ℤ) : ℚ) ∧
      SeriesResult.drawRate
          { winRateA := 0, drawRate := 100, winRateB := 0, scores := [((0, 0), 1)] } =
        100 * (d : ℚ) / ((1 : ℤ) : ℚ) ∧
      SeriesResult.winRateB
          { winRateA := 0, drawRate := 100, winRateB := 0, scores := [((0, 0), 1)] } =
        100 * (wb : ℚ) / ((1 : ℤ) : ℚ) :=
  c5_series_conservation team11 team11 (fun _ => (1/2 : ℚ)) (fun _ => 0) 3 1
    { winRateA := 0, drawRate := 100, winRateB := 0, scores := [((0, 0), 1)] }
    (by norm_num) (by decide)

end MLSim
